import Mathlib

/-!
# Verification of the auto-issue-runner orchestrator

Shallow embedding of the JavaScript sources of `auto-issue-runner`
(`src/config.js`, `src/lock.js`, `src/github.js`, `src/issues.js`,
`src/runner.js`, plus the file holding `GitOperations`, `ClaudeHandler`
and the entry point) together with proofs about the embedded
definitions.

Conventions used throughout:

* JavaScript exceptions are modelled with `Except JsError`; a thrown
  `Error` object is a `JsError` record whose optional fields mirror the
  duck-typed properties the code inspects (`code`, `status`,
  `response.headers['retry-after']`).
* Machine-level effects (filesystem reads/writes, subprocess exits,
  remote API responses) are supplied as explicit environment records;
  each embedded function consumes the recorded outcome of each external
  call exactly where the source performs that call, and emits the list
  of mutating operations it attempted, in order.
* `async`/`await` sequencing inside one function is straight-line
  sequencing; `try`/`catch`/`finally` become explicit case splits on
  `Except` values, following the source's control flow statement by
  statement.
-/

deriving instance DecidableEq for Except

namespace AutoIssueRunner

/-- A JavaScript `Error` as observed by this program: a message plus the
duck-typed optional properties the sources inspect (`error.code` in
`lock.js`, `error.status` and `error.response.headers['retry-after']` in
`github.js`).  `retryAfter` holds the already-`parseInt`ed header value
in seconds, `none` when the header is absent. -/
structure JsError where
  message : String
  code : Option String := none
  status : Option Nat := none
  retryAfter : Option Nat := none
  deriving Repr, DecidableEq

/-- The `error.code === 'ENOENT'` test from `lock.js`. -/
def JsError.isEnoent (e : JsError) : Bool :=
  e.code == some "ENOENT"

/-! ## Decimal parsing (JavaScript `parseInt(s, 10)`)

`lock.js` parses the lock-file content with `parseInt(lockData.trim(), 10)`
and `issues.js` parses regex digit captures with `parseInt(match[1], 10)`.
`parseInt` reads an optional sign and then the longest digit prefix,
ignoring any trailing characters, and yields `NaN` when no digit is found
(modelled as `none`).  Leading whitespace is already removed by `.trim()`
at every call site. -/

/-- Value of a digit list, most significant first. -/
def digitsToNat (ds : List Char) : Nat :=
  ds.foldl (fun n c => n * 10 + (c.toNat - 48)) 0

/-- Longest digit prefix of a character list, `none` when empty. -/
def digitsPrefixVal (cs : List Char) : Option Nat :=
  let ds := cs.takeWhile Char.isDigit
  if ds.isEmpty then none else some (digitsToNat ds)

/-- JavaScript `String.prototype.trim()`: strip whitespace from both
ends.  (Implemented over the character list so that it evaluates inside
the kernel; `Char.isWhitespace` covers the space/tab/newline/CR core of
the JavaScript whitespace class, which is all this program ever
trims.) -/
def jsTrim (s : String) : String :=
  String.mk
    (((s.toList.dropWhile Char.isWhitespace).reverse.dropWhile
      Char.isWhitespace).reverse)

/-- `parseInt(s, 10)` on an already-trimmed string. -/
def jsParseInt (s : String) : Option Int :=
  match s.toList with
  | '-' :: rest => (digitsPrefixVal rest).map (fun n => -(n : Int))
  | '+' :: rest => (digitsPrefixVal rest).map (fun n => (n : Int))
  | cs => (digitsPrefixVal cs).map (fun n => (n : Int))

/-! ## `src/lock.js` — ProcessLock -/

/-- A mutating filesystem operation attempted on the lock path. -/
inductive LockFsOp where
  | unlink
  | write (content : String)
  deriving Repr, DecidableEq

/-- Effect of a list of successful lock-path operations on the lock-file
content (`none` = file absent). -/
def applyLockOps (init : Option String) : List LockFsOp → Option String
  | [] => init
  | .unlink :: rest => applyLockOps none rest
  | .write c :: rest => applyLockOps (some c) rest

/-- `isProcessRunning(pid)` (`lock.js` 13–20): `process.kill(pid, 0)`
succeeds exactly when a process with id `pid` exists (signal `0` only
probes existence); any thrown error — nonexistent process, or the
out-of-range pid produced when `parseInt` returned `NaN` — is caught and
reported as `false`.  `alive` is the operating system's live-pid
predicate. -/
def isProcessRunning (alive : Int → Bool) : Option Int → Bool
  | none => false
  | some pid => alive pid

/-- Rendering of the `parseInt` result inside the template literal
`` `Auto runner already running with PID ${existingPid}` ``. -/
def pidText : Option Int → String
  | none => "NaN"
  | some p => toString p

/-- Result of `acquire()` or `release()`: the settled promise, the list
of mutating filesystem operations attempted on the lock path (in order),
and the final value of `this.lockAcquired`. -/
structure LockRun where
  result : Except JsError Unit
  ops : List LockFsOp
  lockAcquired : Bool
  deriving Repr, DecidableEq

/-- `acquire()` (`lock.js` 22–42), statement by statement.

The `try` block reads the lock file (`readRes` records the outcome of
`await fs.readFile(LOCK_PATH, 'utf8')`), parses the stored pid, throws an
"already running" `Error` when that pid is alive, and otherwise unlinks
the stale file (`unlinkRes` records the outcome of `fs.unlink`).  The
`catch` re-raises any caught error whose `code` is not `'ENOENT'`; this
applies to filesystem errors from `readFile`/`unlink` as well as to the
explicitly thrown `Error`, whose `code` is `undefined`.  After the
`try`/`catch`, `fs.writeFile` stores the current pid as decimal text
(`writeRes` records its outcome); only then is `lockAcquired` set. -/
def acquire (selfPid : Nat) (alive : Int → Bool)
    (readRes : Except JsError String)
    (unlinkRes : Except JsError Unit)
    (writeRes : Except JsError Unit) : LockRun :=
  -- outcome of the try block: `.ok ops` when it ran to completion,
  -- `.error (e, ops)` when it raised `e`, `ops` being the filesystem
  -- mutations attempted up to that point
  let tryBlock : Except (JsError × List LockFsOp) (List LockFsOp) :=
    match readRes with
    | .error e => .error (e, [])
    | .ok lockData =>
      let existingPid := jsParseInt (jsTrim lockData)
      if isProcessRunning alive existingPid then
        .error ({ message :=
          "Auto runner already running with PID " ++ pidText existingPid }, [])
      else
        match unlinkRes with
        | .error e => .error (e, [LockFsOp.unlink])
        | .ok _ => .ok [LockFsOp.unlink]
  -- the catch clause: swallow `ENOENT`, re-raise anything else
  let afterCatch : Except (JsError × List LockFsOp) (List LockFsOp) :=
    match tryBlock with
    | .ok ops => .ok ops
    | .error (e, ops) => if e.isEnoent then .ok ops else .error (e, ops)
  match afterCatch with
  | .error (e, ops) => { result := .error e, ops := ops, lockAcquired := false }
  | .ok ops =>
    match writeRes with
    | .error e =>
      { result := .error e
        ops := ops ++ [LockFsOp.write (toString selfPid)]
        lockAcquired := false }
    | .ok _ =>
      { result := .ok ()
        ops := ops ++ [LockFsOp.write (toString selfPid)]
        lockAcquired := true }

/-- `release()` (`lock.js` 44–56), statement by statement.

When `lockAcquired` is false the method returns at once.  Otherwise it
unlinks the lock file (`unlinkRes` records the outcome of `fs.unlink`);
on success `lockAcquired` is cleared.  The `catch` clause logs errors
whose `code` is not `'ENOENT'` with `console.error` and swallows every
caught error — `release()` never re-raises, and on any unlink failure
`lockAcquired` keeps its previous value `true`. -/
def release (lockAcquired : Bool)
    (unlinkRes : Except JsError Unit) : LockRun :=
  if lockAcquired then
    match unlinkRes with
    | .ok _ => { result := .ok (), ops := [LockFsOp.unlink], lockAcquired := false }
    | .error _ => { result := .ok (), ops := [LockFsOp.unlink], lockAcquired := true }
  else
    { result := .ok (), ops := [], lockAcquired := false }

/-! ## `src/config.js` — CONFIG and validateConfig -/

/-- The configuration record; fields are the ones the embedded
components read.  `testCmd`/`buildCmd` are `TEST_COMMAND`/`BUILD_COMMAND`
(optional, no default), `labelIssue`/`labelClaude` the two required
labels, `timeoutMs` is `CLAUDE_TIMEOUT_MS`, `intervalMs` is
`POLLING_INTERVAL_MS`. -/
structure Config where
  testCmd : Option String
  buildCmd : Option String
  labelIssue : String
  labelClaude : String
  defaultBranch : String
  timeoutMs : Nat
  intervalMs : Nat
  deriving Repr, DecidableEq

/-- `validateConfig()` (`config.js` 63–76): throws when
`CLAUDE_TIMEOUT_MS < 30000` or `POLLING_INTERVAL_MS < 60000`. -/
def validateConfig (cfg : Config) : Except JsError Unit :=
  if cfg.timeoutMs < 30000 then
    .error { message := "CLAUDE_TIMEOUT_MS must be at least 30000 (30 seconds)" }
  else if cfg.intervalMs < 60000 then
    .error { message := "POLLING_INTERVAL_MS must be at least 60000 (1 minute)" }
  else .ok ()

/-- The configuration obtained when every optional environment variable
is left unset: labels `auto` / `claude-help-wanted`, default branch
`main`, agent timeout 300000 ms, polling interval 180000 ms
(`config.js` 34–57). -/
def defaultConfig : Config :=
  { testCmd := none
    buildCmd := none
    labelIssue := "auto"
    labelClaude := "claude-help-wanted"
    defaultBranch := "main"
    timeoutMs := 300000
    intervalMs := 180000 }

/-! ## `src/github.js` — GitHubClient.withRetry -/

/-- Disposition of the promise returned by `withRetry` (and by
`invokeClaude`): resolved with the operation's value, rejected with an
error, or — when the `for` loop is exhausted without either — resolved
with `undefined`. -/
inductive RetryOutcome (α : Type) where
  | value (a : α)
  | raised (e : JsError)
  | undef
  deriving Repr, DecidableEq

/-- Loop body of `withRetry` (`github.js` 40–61) over the remaining
attempt indices (the `for` loop runs `attempt = 1 .. maxRetries`).
`op attempt` records the outcome of `await operation()` on that attempt.
On a failure with `status` 403 or 429 the code sleeps `retry-after`
seconds when the header is present and `2^attempt` seconds otherwise,
then `continue`s — skipping the `attempt === maxRetries` re-raise check;
on any other failure it re-raises the original error when
`attempt === maxRetries` and otherwise sleeps `2^attempt` seconds.
Returns the disposition together with the list of sleeps (ms), in
order. -/
def withRetryGo (op : Nat → Except JsError α) (maxRetries : Nat) :
    List Nat → RetryOutcome α × List Nat
  | [] => (.undef, [])
  | attempt :: rest =>
    match op attempt with
    | .ok a => (.value a, [])
    | .error e =>
      if e.status == some 403 || e.status == some 429 then
        let delay :=
          match e.retryAfter with
          | some ra => ra * 1000
          | none => 2 ^ attempt * 1000
        let r := withRetryGo op maxRetries rest
        (r.1, delay :: r.2)
      else if attempt == maxRetries then (.raised e, [])
      else
        let delay := 2 ^ attempt * 1000
        let r := withRetryGo op maxRetries rest
        (r.1, delay :: r.2)

/-- `withRetry(operation, maxRetries = 3)` (`github.js` 40–61). -/
def withRetry (op : Nat → Except JsError α) (maxRetries : Nat) :
    RetryOutcome α × List Nat :=
  withRetryGo op maxRetries (List.range' 1 maxRetries)

/-! ## Polling-loop scheduling — `startPolling` (`runner.js` 59–67)

`startPolling` installs
`setInterval(async () => { if (this.isRunning) { await this.runCycle(); } }, CONFIG.polling.intervalMs)`.
Per the event-loop semantics of `setInterval`, the timer fires its
callback at times `intervalMs, 2*intervalMs, ...` measured from
`startPolling`, and never waits for the promise returned by the `async`
callback; the callback checks `this.isRunning` (which stays `true` for
the whole run — `stop()` is the only writer) and then invokes
`runCycle()` immediately.  Neither the callback nor `runCycle` carries
any re-entrancy guard, so the cycle begun by the k-th firing
(k = 0, 1, ...) starts at `(k+1)*intervalMs` regardless of whether any
earlier cycle has finished. -/

/-- Start time of the cycle begun by the k-th timer firing. -/
def pollCycleStart (intervalMs : Nat) (k : Nat) : Nat :=
  (k + 1) * intervalMs

/-- Finalize time of the cycle begun by the k-th firing: its start plus
its wall-clock duration (`runCycle` finalizes — outcome set, result
appended — only when its own body completes; the timer does not wait
for it). -/
def pollCycleFinalize (intervalMs : Nat) (dur : Nat → Nat) (k : Nat) : Nat :=
  pollCycleStart intervalMs k + dur k

/-- Two distinct timer-started cycles are in flight simultaneously:
each starts strictly before the other finalizes. -/
def cyclesOverlap (intervalMs : Nat) (dur : Nat → Nat) (j k : Nat) : Prop :=
  j ≠ k ∧ pollCycleStart intervalMs j < pollCycleFinalize intervalMs dur k ∧
    pollCycleStart intervalMs k < pollCycleFinalize intervalMs dur j

/-! ## ClaudeHandler — `invokeClaude` / `runClaudeCommand` (part_000 470–554) -/

/-- Observable behavior of one spawned `claude-code` child process:
it closes `closesAtMs` milliseconds after the spawn with the given exit
code and stderr transcript.  "Never finishes on its own" is any
`closesAtMs` at or beyond the safety window, at which point the timeout
handler acts first. -/
structure ChildRun where
  closesAtMs : Nat
  exitCode : Int
  stderr : String
  deriving Repr, DecidableEq

/-- The safety timeout armed in `runClaudeCommand`:
`CONFIG.claude.timeoutMs + 10000` ms (a buffer beyond the `--timeout`
passed to the agent itself). -/
def safetyWindowMs (timeoutMs : Nat) : Nat :=
  timeoutMs + 10000

/-- `runClaudeCommand` (part_000 502–554): resolves when the child
closes with exit code 0 before the safety timeout fires; rejects with an
"exited with code" error on a nonzero exit before the timeout; and when
the child is still running at the timeout, kills it with SIGTERM and
rejects with 'Claude Code timed out'.  The Boolean records whether the
timeout handler terminated the child. -/
def runClaudeCommand (timeoutMs : Nat) (run : ChildRun) :
    Except JsError Unit × Bool :=
  if run.closesAtMs < safetyWindowMs timeoutMs then
    if run.exitCode = 0 then (.ok (), false)
    else
      (.error { message := "Claude Code exited with code " ++ toString run.exitCode
        ++ ". stderr: " ++ run.stderr }, false)
  else
    (.error { message := "Claude Code timed out" }, true)

/-- Loop body of `invokeClaude` (part_000 470–494) over the remaining
attempt indices (the loop runs `attempt = 1 .. maxAttempts` with
`maxAttempts = retries + 1`).  Each attempt runs `runClaudeCommand` on
the child behavior `runs attempt`; on failure with
`attempt < maxAttempts` it sleeps 10000 ms and retries, otherwise it
throws ``Claude Code failed after N attempts: <last error message>``.
Returns (disposition, attempts performed, sleeps in ms). -/
def invokeClaudeGo (timeoutMs : Nat) (runs : Nat → ChildRun) (maxAttempts : Nat) :
    List Nat → RetryOutcome Unit × Nat × List Nat
  | [] => (.undef, 0, [])
  | attempt :: rest =>
    match runClaudeCommand timeoutMs (runs attempt) with
    | (.ok _, _) => (.value (), 1, [])
    | (.error e, _) =>
      if attempt < maxAttempts then
        let r := invokeClaudeGo timeoutMs runs maxAttempts rest
        (r.1, r.2.1 + 1, 10000 :: r.2.2)
      else
        (.raised { message := "Claude Code failed after " ++ toString maxAttempts
          ++ " attempts: " ++ e.message }, 1, [])

/-- `invokeClaude(promptPath, retries)`; the orchestrator always passes
`retries = 1` (`runner.js` 115), so `maxAttempts = 2`. -/
def invokeClaude (timeoutMs : Nat) (runs : Nat → ChildRun) (retries : Nat) :
    RetryOutcome Unit × Nat × List Nat :=
  invokeClaudeGo timeoutMs runs (retries + 1) (List.range' 1 (retries + 1))

/-! ## `src/issues.js` — IssueSelector -/

/-- The fields of a GitHub issue object that the embedded components
read: `number`, `title`, `body` (nullable) and the label-name list. -/
structure Issue where
  number : Nat
  title : String
  body : Option String
  labels : List String
  deriving Repr, DecidableEq

/-- The fields of a pull-request object that the selector reads:
`pr.head.ref`, the source branch name. -/
structure PRInfo where
  headRef : String
  deriving Repr, DecidableEq

/-- The JavaScript whitespace class `\s` as it occurs in issue titles:
space, tab, line feed, vertical tab, form feed, carriage return.  (The
additional Unicode space code points of `\s` are omitted; they are
handled identically to these by every property proved here.) -/
def isJsWhitespace (c : Char) : Bool :=
  c == ' ' || c == '\t' || c == '\n' || c == '\x0b' || c == '\x0c' || c == '\r'

/-- `String.prototype.toLowerCase` on one character (ASCII range; a
non-ASCII letter left unlowered here is removed by the following
character filter exactly as its lowered form would be). -/
def jsToLower (c : Char) : Char :=
  c.toLower

/-- Characters surviving `.replace(/[^a-z0-9\s-]/g, '')`. -/
def keepSlugChar (c : Char) : Bool :=
  ('a' ≤ c && c ≤ 'z') || ('0' ≤ c && c ≤ '9') || isJsWhitespace c || c == '-'

/-- `.replace(/\s+/g, '-')`: each maximal whitespace run becomes one
hyphen. -/
def collapseWsRuns : List Char → List Char
  | [] => []
  | c :: rest =>
    if isJsWhitespace c then
      '-' :: collapseWsRuns (rest.dropWhile isJsWhitespace)
    else
      c :: collapseWsRuns rest
termination_by l => l.length
decreasing_by
  · exact Nat.lt_succ_of_le (by
      induction rest with
      | nil => simp
      | cons a l ih =>
        by_cases h : isJsWhitespace a
        · simpa [List.dropWhile_cons, h] using Nat.le_succ_of_le ih
        · simp [List.dropWhile_cons, h])
  · simp

/-- `.replace` of the regex `-+$` with the empty string: strip trailing
hyphens. -/
def dropTrailingHyphens (cs : List Char) : List Char :=
  (cs.reverse.dropWhile (fun c => c == '-')).reverse

/-- The slug pipeline of `generateBranchName` (`issues.js` 79–88):
lowercase, strip characters outside `[a-z0-9\s-]`, collapse whitespace
runs to single hyphens, `substring(0, 40)`, strip trailing hyphens. -/
def slugOf (title : String) : String :=
  String.mk
    (dropTrailingHyphens
      ((collapseWsRuns ((title.toList.map jsToLower).filter keepSlugChar)).take 40))

/-- `generateBranchName(issue)` (`issues.js` 79–88):
`` `auto/${issue.number}-${slug}` ``. -/
def generateBranchName (issue : Issue) : String :=
  "auto/" ++ toString issue.number ++ "-" ++ slugOf issue.title

/-- The regex `^auto\/(\d+)-` of `issues.js` 35 composed with
`parseInt(match[1], 10)`: when `ref` starts with `auto/`, then at least
one digit, then a hyphen, the value of that digit run; `none` when the
regex does not match.  (The `startsWith('auto/')` pre-filter inside
`getOpenPullRequests`, `github.js` 105, is subsumed: a ref without the
prefix yields `none` either way.) -/
def branchIssueNumber (ref : String) : Option Nat :=
  if "auto/".toList.isPrefixOf ref.toList then
    let rest := ref.toList.drop 5
    let ds := rest.takeWhile Char.isDigit
    let tail := rest.dropWhile Char.isDigit
    if ds.isEmpty then none
    else
      match tail with
      | '-' :: _ => some (digitsToNat ds)
      | _ => none
  else none

/-- Recorded outcomes of the three remote calls `findEligibleIssue`
performs, in call order: `github.searchEligibleIssues()`,
`github.getOpenPullRequests()`, and `github.getIssue(n)` for the
selected number. -/
structure SelectorEnv where
  searchIssues : Except JsError (List Issue)
  openPRs : Except JsError (List PRInfo)
  getIssue : Nat → Except JsError Issue

/-- Result of one `findEligibleIssue()` call: the settled promise and
the `this.processedIssues` set (as a list) after the call. -/
structure SelectRun where
  result : Except JsError (Option Issue)
  processed : List Nat
  deriving Repr, DecidableEq

/-- The local constant `prIssueNumbers` of `findEligibleIssue`
(`issues.js` 31–39): the issue numbers claimed by open PR branch
names. -/
def prIssueNumbersOf (prs : List PRInfo) : List Nat :=
  prs.filterMap (fun pr => branchIssueNumber pr.headRef)

/-- The local constant `availableIssues` of `findEligibleIssue`
(`issues.js` 41–53): issues neither claimed by an open PR branch nor
already processed in this session. -/
def availableIssuesOf (issues : List Issue) (prs : List PRInfo)
    (processed : List Nat) : List Issue :=
  issues.filter (fun issue =>
    !((prIssueNumbersOf prs).contains issue.number) &&
      !(processed.contains issue.number))

/-- `findEligibleIssue()` (`issues.js` 17–71), statement by statement:
search for eligible issues (remote-filtered, oldest first); return null
when none; list open PRs and collect the issue numbers their branch
names claim (regex `^auto\/(\d+)-`); drop issues claimed by a PR or
already in `this.processedIssues`; return null when nothing remains;
otherwise select the first remaining issue, add its number to
`this.processedIssues` immediately, and return `github.getIssue` of that
number.  The surrounding `try`/`catch` logs and re-raises, leaving every
error unchanged. -/
def findEligibleIssue (env : SelectorEnv) (processed : List Nat) : SelectRun :=
  match env.searchIssues with
  | .error e => { result := .error e, processed := processed }
  | .ok issues =>
    if issues.isEmpty then { result := .ok none, processed := processed }
    else
      match env.openPRs with
      | .error e => { result := .error e, processed := processed }
      | .ok prs =>
        match availableIssuesOf issues prs processed with
        | [] => { result := .ok none, processed := processed }
        | selectedIssue :: _ =>
          match env.getIssue selectedIssue.number with
          | .error e => { result := .error e, processed := selectedIssue.number :: processed }
          | .ok detail =>
            { result := .ok (some detail), processed := selectedIssue.number :: processed }

/-! ## String helpers shared by the PR / commit-message builders -/

/-- Whether `needle` occurs as a contiguous segment of the list
(JavaScript `String.prototype.includes` on character lists). -/
def listIsInfixOf [BEq α] (needle : List α) : List α → Bool
  | [] => needle.isEmpty
  | a :: rest => needle.isPrefixOf (a :: rest) || listIsInfixOf needle rest

/-- `hay.includes(needle)`. -/
def jsIncludes (hay needle : String) : Bool :=
  listIsInfixOf needle.toList hay.toList

/-- `s.toLowerCase()` (ASCII range, see `jsToLower`). -/
def jsLowerStr (s : String) : String :=
  String.mk (s.toList.map jsToLower)

/-- `s.substring(0, n)`. -/
def jsTake (s : String) (n : Nat) : String :=
  String.mk (s.toList.take n)

/-- `s.split('\n')[0]`. -/
def firstLine (s : String) : String :=
  String.mk (s.toList.takeWhile (fun c => c != '\n'))

/-! ## GitOperations — commit-message inference (part_000 224–318) -/

/-- `inferCommitType(issue)` (part_000 258–280): keyword search over the
lowercased `` `${title} ${body}` ``. -/
def inferCommitType (issue : Issue) : String :=
  let content := jsLowerStr issue.title ++ " " ++ jsLowerStr (issue.body.getD "")
  if jsIncludes content "fix" || jsIncludes content "bug" || jsIncludes content "error" then
    "fix"
  else if jsIncludes content "test" || jsIncludes content "spec" then "test"
  else if jsIncludes content "doc" || jsIncludes content "readme" then "docs"
  else if jsIncludes content "refactor" || jsIncludes content "cleanup" then "refactor"
  else if jsIncludes content "perf" || jsIncludes content "performance" then "perf"
  else "feat"

/-- The keyword-to-scope table of `inferCommitScope` (part_000 292–301),
in insertion order. -/
def scopeMap : List (String × String) :=
  [("ui", "ui"), ("api", "api"), ("auth", "auth"), ("database", "db"),
   ("db", "db"), ("config", "config"), ("deps", "deps"), ("dependencies", "deps")]

/-- `inferCommitScope(issue)` (part_000 288–318): first matching label,
then first table keyword contained in the lowercased title. -/
def inferCommitScope (issue : Issue) : Option String :=
  let labels := issue.labels.map jsLowerStr
  let title := jsLowerStr issue.title
  match labels.findSome? (fun label => scopeMap.lookup label) with
  | some sc => some sc
  | none =>
    scopeMap.findSome? (fun kv => if jsIncludes title kv.1 then some kv.2 else none)

/-- `generateCommitMessage(issue)` (part_000 224–250). -/
def generateCommitMessage (issue : Issue) : String :=
  let title :=
    if issue.title.length > 50 then jsTake issue.title 47 ++ "..." else issue.title
  let ctype := inferCommitType issue
  let message :=
    match inferCommitScope issue with
    | some sc => ctype ++ "(" ++ sc ++ ")"
    | none => ctype
  let message := message ++ ": " ++ title
  let message := message ++ "\n\nCloses #" ++ toString issue.number
  let message :=
    match issue.body with
    | none => message
    | some b =>
      let bt := jsTrim b
      if bt.length == 0 then message
      else
        let bodyPreview := firstLine bt
        if bodyPreview.length > 0 && bodyPreview != title then
          message ++ "\n\n" ++ bodyPreview
        else message
  message ++ "\n\n🤖 Generated with Claude Code"

/-- The commit message built inline on the recovery path
(`runner.js` 145). -/
def recoveryCommitMessage (issueNumber : Nat) (e : JsError) : String :=
  "WIP: Attempted fix for issue #" ++ toString issueNumber ++
    "\n\nPartial implementation due to: " ++ e.message ++
    "\n\n🤖 Generated with Claude Code"

/-! ## PullRequestManager (`src/pr.js`, concatenated into github.js 207–406) -/

/-- `inferPRType(issue)` (pr.js): labels first, then keyword search. -/
def inferPRType (issue : Issue) : String :=
  let content := jsLowerStr issue.title ++ " " ++ jsLowerStr (issue.body.getD "")
  let labels := issue.labels.map jsLowerStr
  if labels.contains "bug" then "fix"
  else if labels.contains "documentation" then "docs"
  else if labels.contains "test" then "test"
  else if labels.contains "chore" then "chore"
  else if jsIncludes content "fix" || jsIncludes content "bug" || jsIncludes content "error" then
    "fix"
  else if jsIncludes content "doc" || jsIncludes content "readme" then "docs"
  else if jsIncludes content "test" || jsIncludes content "spec" then "test"
  else if jsIncludes content "refactor" || jsIncludes content "cleanup" then "refactor"
  else if jsIncludes content "perf" || jsIncludes content "performance" then "perf"
  else if jsIncludes content "chore" then "chore"
  else "feat"

/-- The case-insensitive test `^(feat|fix|docs|style|refactor|perf|test|chore)`
used by `generatePRTitle`. -/
def startsWithConvType (title : String) : Bool :=
  let lt := jsLowerStr title
  ["feat", "fix", "docs", "style", "refactor", "perf", "test", "chore"].any
    (fun p => p.toList.isPrefixOf lt.toList)

/-- `generatePRTitle(issue)` (pr.js 253–262). -/
def generatePRTitle (issue : Issue) : String :=
  let title :=
    if startsWithConvType issue.title then issue.title
    else inferPRType issue ++ ": " ++ issue.title
  if title.length > 72 then jsTake title 69 ++ "..." else title

/-- `generatePRBody(issue)` (pr.js 269–316); the configured-command
checks read `CONFIG.commands.test` / `CONFIG.commands.build`. -/
def generatePRBody (cfg : Config) (issue : Issue) : String :=
  let body := "## Summary\n\n" ++
    "This PR implements the changes requested in issue #" ++
    toString issue.number ++ ".\n\n"
  let body :=
    match issue.body with
    | none => body
    | some b =>
      let ib := jsTrim b
      if ib.length == 0 then body
      else
        let preview := if ib.length > 300 then jsTake ib 297 ++ "..." else ib
        body ++ "### Original Issue Description\n\n" ++ preview ++ "\n\n"
  let body := body ++ "## Changes Made\n\n" ++
    "- Implemented solution for the requirements described in the issue\n" ++
    "- Followed existing code patterns and conventions\n" ++
    "- Added appropriate error handling where needed\n"
  let body := if cfg.testCmd.isSome then body ++ "- Ensured all tests pass\n" else body
  let body :=
    if cfg.buildCmd.isSome then body ++ "- Verified build process completes successfully\n"
    else body
  let body := body ++ "\n## Testing\n\n"
  let body :=
    if cfg.testCmd.isSome then
      body ++ "- [x] All existing tests pass\n" ++
        "- [x] New functionality is covered by tests (if applicable)\n"
    else body ++ "- [ ] Manual testing completed\n"
  let body := body ++ "\n## Checklist\n\n" ++
    "- [x] Code follows existing patterns and conventions\n" ++
    "- [x] Changes are atomic and focused\n" ++
    "- [x] Commit messages follow conventional format\n"
  let body :=
    if cfg.buildCmd.isSome then body ++ "- [x] Build process completes without errors\n"
    else body
  body ++ "\nCloses #" ++ toString issue.number ++ "\n\n" ++ "---\n\n" ++
    "🤖 This PR was automatically generated using [Claude Code](https://claude.ai/code)"

/-- Title of the draft PR created on the recovery path (pr.js 370). -/
def draftPRTitle (issue : Issue) : String :=
  "[DRAFT] " ++ generatePRTitle issue

/-- Body of the draft PR created on the recovery path (pr.js 371–376):
the normal body plus an "Implementation Issues" section quoting the
causing error's message. -/
def draftPRBody (cfg : Config) (issue : Issue) (e : JsError) : String :=
  generatePRBody cfg issue ++ "\n\n## ⚠️ Implementation Issues\n\n" ++
    "This PR is marked as draft due to implementation issues:\n\n" ++
    "```\n" ++ e.message ++ "\n```\n\n" ++
    "Please review the changes and address the issues before merging.\n"

/-! ## GitOperations — verification and change detection -/

/-- `hasChanges()` (part_000 91–99): runs `git status --porcelain`
(`statusStdout` records the command's raw stdout on success, or its
failure), reports whether the stdout — `.trim()`med by `runGitCommand`
on resolve, part_000 36 — is nonempty, and catches any command failure,
logging it and returning `false`.  `hasChanges` never raises. -/
def hasChanges (statusStdout : Except JsError String) : Bool :=
  match statusStdout with
  | .ok out => (jsTrim out).length > 0
  | .error _ => false

/-- `runTests()` (part_000 152–167): `true` when no test command is
configured; otherwise whether the configured command exited 0
(`testExit0`); a failing command is caught and reported as `false`. -/
def runTests (cfg : Config) (testExit0 : Bool) : Bool :=
  match cfg.testCmd with
  | none => true
  | some _ => testExit0

/-- `runBuild()` (part_000 173–188), same shape as `runTests`. -/
def runBuild (cfg : Config) (buildExit0 : Bool) : Bool :=
  match cfg.buildCmd with
  | none => true
  | some _ => buildExit0

/-! ## `src/runner.js` — runCycle -/

/-- A CycleResult record (`runner.js` 77–85); `status` is the string
the code stores: `unknown` initially, then exactly one of `NO_ISSUES`,
`SUCCESS`, `PARTIAL`, `FAILED`, `NO_CHANGES`, `ERROR`. -/
structure CycleResult where
  issue : Option Nat
  branch : Option String
  pr_number : Option Nat
  status : String
  error : Option String
  duration_ms : Nat
  deriving Repr, DecidableEq

/-- The record constructed at cycle start (`runner.js` 77–85). -/
def initialCycleResult : CycleResult :=
  { issue := none, branch := none, pr_number := none, status := "unknown"
    error := none, duration_ms := 0 }

/-- A repository-mutating operation attempted by a cycle, in the order
attempted: the staging/commit/push git commands and the remote
PR-creation and label-addition calls. -/
inductive RepoAction where
  | gitAddAll
  | gitCommit (message : String)
  | gitPush (branch : String)
  | apiCreatePR (title : String) (body : String) (head : String)
  | apiAddLabels (labelNames : List String)
  deriving Repr, DecidableEq

/-- Recorded outcomes of every external call one `runCycle()` may
perform, in program order.  `findIssue` is `issueSelector.findEligibleIssue()`;
`sync`/`createBranch` the two git steps; `prompt` is
`claudeHandler.createPromptFile` (its sibling `generateRepoContext`
catches all its own errors); `agent` the settled `invokeClaude` promise;
`testExit0`/`buildExit0` whether the configured test/build commands exit
0; `status1`/`addAll1`/`commit1`/`push1`/`createPR1`/`addLabels1` the
success-path git and API calls; `status2`/… their recovery-path
counterparts; `durationMs` the cycle's measured wall-clock duration. -/
structure CycleEnv where
  findIssue : Except JsError (Option Issue)
  sync : Except JsError Unit
  createBranch : Except JsError Unit
  prompt : Except JsError Unit
  agent : Except JsError Unit
  testExit0 : Bool
  buildExit0 : Bool
  status1 : Except JsError String
  addAll1 : Except JsError Unit
  commit1 : Except JsError Unit
  push1 : Except JsError Unit
  createPR1 : Except JsError Nat
  addLabels1 : Except JsError Unit
  status2 : Except JsError String
  addAll2 : Except JsError Unit
  commit2 : Except JsError Unit
  push2 : Except JsError Unit
  createPR2 : Except JsError Nat
  addLabels2 : Except JsError Unit
  durationMs : Nat

/-- The error thrown at `runner.js` 121 when a configured verification
command fails. -/
def testsOrBuildError : JsError :=
  { message := "Tests or build failed after Claude implementation" }

/-- `prManager.createPullRequest(issue, branchName)` (pr.js 215–246):
create the PR, then add the two configured labels; either failure is
re-raised.  Returns the PR number and the API calls attempted. -/
def prManagerCreate (cfg : Config) (issue : Issue) (branchName : String)
    (createRes : Except JsError Nat) (labelRes : Except JsError Unit) :
    Except (JsError × List RepoAction) (Nat × List RepoAction) :=
  let title := generatePRTitle issue
  let body := generatePRBody cfg issue
  match createRes with
  | .error e => .error (e, [.apiCreatePR title body branchName])
  | .ok n =>
    match labelRes with
    | .error e =>
      .error (e, [.apiCreatePR title body branchName,
        .apiAddLabels [cfg.labelIssue, cfg.labelClaude]])
    | .ok _ =>
      .ok (n, [.apiCreatePR title body branchName,
        .apiAddLabels [cfg.labelIssue, cfg.labelClaude]])

/-- `prManager.createDraftPR(issue, branchName, error)` (pr.js 367–405):
same call sequence with the draft title/body and an extra `draft`
label. -/
def prManagerCreateDraft (cfg : Config) (issue : Issue) (branchName : String)
    (claudeError : JsError)
    (createRes : Except JsError Nat) (labelRes : Except JsError Unit) :
    Except (JsError × List RepoAction) (Nat × List RepoAction) :=
  let title := draftPRTitle issue
  let body := draftPRBody cfg issue claudeError
  match createRes with
  | .error e => .error (e, [.apiCreatePR title body branchName])
  | .ok n =>
    match labelRes with
    | .error e =>
      .error (e, [.apiCreatePR title body branchName,
        .apiAddLabels [cfg.labelIssue, cfg.labelClaude, "draft"]])
    | .ok _ =>
      .ok (n, [.apiCreatePR title body branchName,
        .apiAddLabels [cfg.labelIssue, cfg.labelClaude, "draft"]])

/-- The inner `try` block of `runCycle` (`runner.js` 114–139): invoke
the agent, run verification, and on the all-clear commit/push/publish
(`SUCCESS`) or record `NO_CHANGES`.  An error result is the thrown
`claudeError` handed to the inner `catch`, paired with the mutating
operations already attempted. -/
def successPath (cfg : Config) (env : CycleEnv) (issue : Issue) (branchName : String)
    (r : CycleResult) : Except (JsError × List RepoAction) (CycleResult × List RepoAction) :=
  match env.agent with
  | .error e => .error (e, [])
  | .ok _ =>
    let testsPass := runTests cfg env.testExit0
    let buildPass := runBuild cfg env.buildExit0
    if !testsPass || !buildPass then .error (testsOrBuildError, [])
    else if hasChanges env.status1 then
      let commitMessage := generateCommitMessage issue
      match env.addAll1 with
      | .error e => .error (e, [.gitAddAll])
      | .ok _ =>
        match env.commit1 with
        | .error e => .error (e, [.gitAddAll, .gitCommit commitMessage])
        | .ok _ =>
          match env.push1 with
          | .error e =>
            .error (e, [.gitAddAll, .gitCommit commitMessage, .gitPush branchName])
          | .ok _ =>
            match prManagerCreate cfg issue branchName env.createPR1 env.addLabels1 with
            | .error (e, acts) =>
              .error (e,
                [.gitAddAll, .gitCommit commitMessage, .gitPush branchName] ++ acts)
            | .ok (n, acts) =>
              .ok ({ r with pr_number := some n, status := "SUCCESS" },
                [.gitAddAll, .gitCommit commitMessage, .gitPush branchName] ++ acts)
    else .ok ({ r with status := "NO_CHANGES" }, [])

/-- The inner `catch` block of `runCycle` (`runner.js` 141–160): with
uncommitted changes, commit them under a WIP message recording the
causing error, push, and publish the draft PR (`PARTIAL`); without
changes, record `FAILED`.  Errors thrown by these recovery operations
escape to the outer `catch`. -/
def recoveryPath (cfg : Config) (env : CycleEnv) (issue : Issue) (branchName : String)
    (r : CycleResult) (claudeError : JsError) :
    Except (JsError × List RepoAction) (CycleResult × List RepoAction) :=
  if hasChanges env.status2 then
    let commitMessage := recoveryCommitMessage issue.number claudeError
    match env.addAll2 with
    | .error e => .error (e, [.gitAddAll])
    | .ok _ =>
      match env.commit2 with
      | .error e => .error (e, [.gitAddAll, .gitCommit commitMessage])
      | .ok _ =>
        match env.push2 with
        | .error e =>
          .error (e, [.gitAddAll, .gitCommit commitMessage, .gitPush branchName])
        | .ok _ =>
          match prManagerCreateDraft cfg issue branchName claudeError
              env.createPR2 env.addLabels2 with
          | .error (e, acts) =>
            .error (e,
              [.gitAddAll, .gitCommit commitMessage, .gitPush branchName] ++ acts)
          | .ok (n, acts) =>
            .ok ({ r with
                  pr_number := some n, status := "PARTIAL",
                  error := some claudeError.message },
              [.gitAddAll, .gitCommit commitMessage, .gitPush branchName] ++ acts)
  else .ok ({ r with status := "FAILED", error := some claudeError.message }, [])

/-- The observable outcome of one `runCycle()` call: the final
CycleResult, the records appended to `this.cycleResults` by
`logCycleResult` during the call (snapshots at push time; in JavaScript
both pushes store the same object reference, so the count is the
faithful observable), and the mutating repository operations attempted,
in order. -/
structure CycleRun where
  result : CycleResult
  log : List CycleResult
  actions : List RepoAction
  deriving Repr, DecidableEq

/-- `runCycle()` (`runner.js` 73–171), statement by statement.

The `try` block: `findEligibleIssue` (an error escapes to the outer
`catch`); on `null` it sets status `NO_ISSUES`, calls
`logCycleResult(result)` and `return`s — the `finally` block still runs
afterwards and calls `logCycleResult(result)` a second time.  Otherwise
it records issue number and branch name, syncs and branches (failures
escape to the outer `catch`), writes the prompt file, and runs the inner
`try`/`catch` (`successPath` / `recoveryPath`).  The outer `catch` sets
status `ERROR` with the escaping error's message.  The `finally` block
runs `claudeHandler.cleanup()` (which swallows its own errors), stores
the measured duration, and appends the result. -/
def runCycle (cfg : Config) (env : CycleEnv) : CycleRun :=
  let r0 := initialCycleResult
  let tryBlock :
      Except (JsError × CycleResult × List RepoAction)
        (CycleResult × List RepoAction × List CycleResult) :=
    match env.findIssue with
    | .error e => .error (e, r0, [])
    | .ok none =>
      let r1 := { r0 with status := "NO_ISSUES" }
      .ok (r1, [], [r1])
    | .ok (some issue) =>
      let branchName := generateBranchName issue
      let r2 := { r0 with issue := some issue.number, branch := some branchName }
      match env.sync with
      | .error e => .error (e, r2, [])
      | .ok _ =>
        match env.createBranch with
        | .error e => .error (e, r2, [])
        | .ok _ =>
          match env.prompt with
          | .error e => .error (e, r2, [])
          | .ok _ =>
            match successPath cfg env issue branchName r2 with
            | .ok (r3, acts) => .ok (r3, acts, [])
            | .error (claudeError, acts) =>
              match recoveryPath cfg env issue branchName r2 claudeError with
              | .ok (r3, acts2) => .ok (r3, acts ++ acts2, [])
              | .error (e2, acts2) => .error (e2, r2, acts ++ acts2)
  match tryBlock with
  | .ok (r, acts, earlyLog) =>
    let rFinal := { r with duration_ms := env.durationMs }
    { result := rFinal, log := earlyLog ++ [rFinal], actions := acts }
  | .error (e, r, acts) =>
    let rFinal := { r with
      status := "ERROR", error := some e.message,
      duration_ms := env.durationMs }
    { result := rFinal, log := [rFinal], actions := acts }

/-! ## Concrete instances used by closed theorems and witnesses -/

/-- A permission-denied filesystem error (non-`ENOENT`). -/
def eaccesError : JsError :=
  { message := "EACCES: permission denied, unlink .auto-runner.lock"
    code := some "EACCES" }

/-- A file-absent filesystem error. -/
def enoentError : JsError :=
  { message := "ENOENT: no such file or directory", code := some "ENOENT" }

/-- The error `invokeClaude` raises when both agent attempts fail. -/
def agentFailure : JsError :=
  { message := "Claude Code failed after 2 attempts: Claude Code timed out" }

/-- A failing `git status --porcelain` invocation, as rejected by
`runGitCommand`. -/
def gitStatusFailure : JsError :=
  { message := "Git command failed (exit 128): fatal: not a git repository" }

/-- A cycle environment in which `findEligibleIssue` resolves with
`null` and every later step (never reached) would succeed. -/
def noIssuesEnv : CycleEnv :=
  { findIssue := .ok none
    sync := .ok (), createBranch := .ok (), prompt := .ok (), agent := .ok ()
    testExit0 := true, buildExit0 := true
    status1 := .ok "", addAll1 := .ok (), commit1 := .ok (), push1 := .ok ()
    createPR1 := .ok 34, addLabels1 := .ok ()
    status2 := .ok "", addAll2 := .ok (), commit2 := .ok (), push2 := .ok ()
    createPR2 := .ok 35, addLabels2 := .ok ()
    durationMs := 1200 }

/-- A concrete issue. -/
def issueW : Issue :=
  { number := 12
    title := "Fix crash when parsing empty config"
    body := some "The parser crashes.\nSteps: run with an empty file."
    labels := ["bug"] }

/-- A cycle environment in which the agent invocation fails and the
working tree is left with uncommitted changes; every recovery operation
succeeds. -/
def recoveryEnvW : CycleEnv :=
  { findIssue := .ok (some issueW)
    sync := .ok (), createBranch := .ok (), prompt := .ok ()
    agent := .error agentFailure
    testExit0 := true, buildExit0 := true
    status1 := .ok " M src/parser.js", addAll1 := .ok (), commit1 := .ok ()
    push1 := .ok (), createPR1 := .ok 34, addLabels1 := .ok ()
    status2 := .ok " M src/parser.js", addAll2 := .ok (), commit2 := .ok ()
    push2 := .ok (), createPR2 := .ok 35, addLabels2 := .ok ()
    durationMs := 642000 }

/-- A cycle environment in which the agent invocation fails and both
`git status` probes themselves fail. -/
def statusFailEnvW : CycleEnv :=
  { recoveryEnvW with
    status1 := .error gitStatusFailure
    status2 := .error gitStatusFailure }

/-- A selector environment: issues 5 and 7 are eligible, one open PR on
branch `auto/5-fix-crash` claims issue 5, and the detail fetch echoes
the requested number. -/
def selEnvW : SelectorEnv :=
  { searchIssues := .ok
      [{ number := 5, title := "Fix crash", body := none, labels := [] },
       { number := 7, title := "Add logging", body := none, labels := [] }]
    openPRs := .ok [{ headRef := "auto/5-fix-crash" }]
    getIssue := fun n => .ok { number := n, title := "detail", body := none, labels := [] } }

/-- The per-attempt child behavior in which every agent attempt exits
nonzero immediately. -/
def runsBothFail : Nat → ChildRun :=
  fun _ => { closesAtMs := 5000, exitCode := 1, stderr := "boom" }

/-! # Theorems -/

/-- **C1** (code divergence, evaluated at the failing input).  The claim
says two cycles of one runner process never overlap: the polling timer's
firing leads to a new cycle only after the previous cycle's finalize
step.  Under the embedded `setInterval` semantics of `startPolling`,
with the default configuration — which passes `validateConfig` — and a
first cycle lasting `CLAUDE_TIMEOUT_MS = 300000` ms (a single agent
invocation running to its timeout), the cycle begun by the second timer
firing starts while the first is still in flight: the two cycles
overlap. -/
theorem polling_allows_overlapping_cycles :
    validateConfig defaultConfig = .ok () ∧
    cyclesOverlap defaultConfig.intervalMs (fun _ => defaultConfig.timeoutMs) 0 1 := by
  refine ⟨rfl, by decide, by decide, by decide⟩

/-- **C2** (code divergence, evaluated at the failing input).  The claim
says exactly one CycleResult is appended per cycle, a `NO_ISSUES` cycle
contributing one record.  In a cycle where `findEligibleIssue` resolves
with `null`, `runCycle` calls `logCycleResult` before its early
`return` and the `finally` block calls it again: two records with
status `NO_ISSUES` are appended. -/
theorem no_issues_cycle_appends_two_records :
    (runCycle defaultConfig noIssuesEnv).result.status = "NO_ISSUES" ∧
    (runCycle defaultConfig noIssuesEnv).log.length = 2 ∧
    (runCycle defaultConfig noIssuesEnv).log.map CycleResult.status
      = ["NO_ISSUES", "NO_ISSUES"] := by
  refine ⟨rfl, rfl, rfl⟩

/-- **C3** (code divergence, evaluated at the failing input).  The claim
says that once the attempt cap is exceeded the last underlying error is
surfaced to the caller unchanged for either failure class.  For the
throttling class the `continue` skips the `attempt === maxRetries`
re-raise: after three attempts that all fail with status 429 (backoffs
2, 4, 8 s) — or with status 403 and `retry-after: 7` (waits of exactly
7 s each) — `withRetry` resolves with `undefined` and no error ever
reaches the caller.  A generic failure on every attempt, by contrast,
is re-raised unchanged after the 2 s and 4 s backoffs. -/
theorem withRetry_throttling_exhaustion_returns_undefined :
    withRetry (fun _ =>
        (.error { message := "API rate limit exceeded", status := some 429 }
          : Except JsError Nat)) 3
      = (.undef, [2000, 4000, 8000]) ∧
    withRetry (fun _ =>
        (.error { message := "rate limited", status := some 403, retryAfter := some 7 }
          : Except JsError Nat)) 3
      = (.undef, [7000, 7000, 7000]) ∧
    withRetry (fun _ =>
        (.error { message := "socket hang up" } : Except JsError Nat)) 3
      = (.raised { message := "socket hang up" }, [2000, 4000]) := by
  refine ⟨rfl, rfl, rfl⟩

/-- **C5, counterexample.**  The claim says every non-`ENOENT` I/O error
raised during `acquire()` or `release()` propagates to the caller.  A
permission-denied (`EACCES`) failure of the unlink inside `release()` is
caught, logged, and swallowed: `release` resolves normally (and even
leaves `lockAcquired` set). -/
theorem release_suppresses_non_enoent_error :
    eaccesError.isEnoent = false ∧
    (release true (.error eaccesError)).result = .ok () ∧
    (release true (.error eaccesError)).lockAcquired = true := by
  refine ⟨rfl, rfl, rfl⟩

/-- **C4.**  For a lock file whose content parses to pid `p`: when `p`
is not alive, `acquire()` succeeds and the lock file afterwards holds
the current process's id; when `p` is alive, `acquire()` raises the
"already running" error naming `p` and attempts no filesystem
mutation. -/
theorem acquire_stale_and_live_lock_behavior
    (selfPid : Nat) (alive : Int → Bool) (content : String) (p : Int)
    (hparse : jsParseInt (jsTrim content) = some p) :
    (alive p = false →
      (acquire selfPid alive (.ok content) (.ok ()) (.ok ())).result = .ok () ∧
      applyLockOps (some content)
          (acquire selfPid alive (.ok content) (.ok ()) (.ok ())).ops
        = some (toString selfPid)) ∧
    (alive p = true →
      ∀ unlinkRes writeRes,
        (acquire selfPid alive (.ok content) unlinkRes writeRes).result
          = .error { message := "Auto runner already running with PID " ++ toString p } ∧
        (acquire selfPid alive (.ok content) unlinkRes writeRes).ops = []) := by
  constructor
  · intro hdead
    unfold acquire
    simp [hparse, isProcessRunning, hdead, applyLockOps]
  · intro hlive unlinkRes writeRes
    unfold acquire
    simp [hparse, isProcessRunning, hlive, pidText, JsError.isEnoent]

/-- **C4 witness**: pid 7 is the only live process; a lock file holding
`42` is stale, so acquisition by pid 100 succeeds and rewrites the file
to `100`. -/
theorem acquire_stale_and_live_lock_behavior_witness :
    (acquire 100 (fun q => q == 7) (.ok "42") (.ok ()) (.ok ())).result = .ok () ∧
    applyLockOps (some "42")
        (acquire 100 (fun q => q == 7) (.ok "42") (.ok ()) (.ok ())).ops
      = some "100" :=
  (acquire_stale_and_live_lock_behavior 100 (fun q => q == 7) "42" 42 rfl).1 rfl

/-- **C5, amended.**  Any non-`ENOENT` I/O error raised during
`acquire()` — from the lock-file read, the stale-file unlink, or the
write of the new record — propagates to the caller unchanged; `release()`
however catches every unlink error, logging the non-`ENOENT` ones, and
always resolves normally. -/
theorem lock_error_propagation_amended
    (selfPid : Nat) (alive : Int → Bool) (e : JsError) (h : e.isEnoent = false) :
    (∀ unlinkRes writeRes,
      (acquire selfPid alive (.error e) unlinkRes writeRes).result = .error e) ∧
    (∀ content writeRes,
      isProcessRunning alive (jsParseInt (jsTrim content)) = false →
      (acquire selfPid alive (.ok content) (.error e) writeRes).result = .error e) ∧
    (∀ unlinkRes,
      (acquire selfPid alive (.error enoentError) unlinkRes (.error e)).result = .error e) ∧
    (∀ la unlinkRes, (release la unlinkRes).result = .ok ()) := by
  refine ⟨?_, ?_, ?_, ?_⟩
  · intro unlinkRes writeRes
    unfold acquire
    simp [h]
  · intro content writeRes hdead
    unfold acquire
    simp [hdead, h]
  · intro unlinkRes
    unfold acquire
    simp [enoentError, JsError.isEnoent]
  · intro la unlinkRes
    cases la <;> cases unlinkRes <;> rfl

/-- **C5 amended, witness** at the concrete `EACCES` error. -/
theorem lock_error_propagation_amended_witness :
    (∀ unlinkRes writeRes,
      (acquire 100 (fun _ => false) (.error eaccesError) unlinkRes writeRes).result
        = .error eaccesError) ∧
    (∀ content writeRes,
      isProcessRunning (fun _ => false) (jsParseInt (jsTrim content)) = false →
      (acquire 100 (fun _ => false) (.ok content) (.error eaccesError) writeRes).result
        = .error eaccesError) ∧
    (∀ unlinkRes,
      (acquire 100 (fun _ => false) (.error enoentError) unlinkRes
          (.error eaccesError)).result = .error eaccesError) ∧
    (∀ la unlinkRes, (release la unlinkRes).result = .ok ()) :=
  lock_error_propagation_amended 100 (fun _ => false) eaccesError rfl

/-- **C7.**  With the orchestrator's `retries = 1`: the invoker performs
at most two attempts; a child still running at the safety timeout is
terminated (SIGTERM) and its attempt rejects — counting as one failed
attempt like any other; and when both attempts fail there is exactly one
fixed 10 s pause and the raised error's message extends the final
underlying failure's message. -/
theorem invokeClaude_retry_contract (timeoutMs : Nat) (runs : Nat → ChildRun) :
    (invokeClaude timeoutMs runs 1).2.1 ≤ 2 ∧
    (∀ k, safetyWindowMs timeoutMs ≤ (runs k).closesAtMs →
      runClaudeCommand timeoutMs (runs k)
        = (.error { message := "Claude Code timed out" }, true)) ∧
    (∀ e1 e2 b1 b2,
      runClaudeCommand timeoutMs (runs 1) = (.error e1, b1) →
      runClaudeCommand timeoutMs (runs 2) = (.error e2, b2) →
      (invokeClaude timeoutMs runs 1).1
          = .raised { message := "Claude Code failed after 2 attempts: " ++ e2.message } ∧
      (invokeClaude timeoutMs runs 1).2.1 = 2 ∧
      (invokeClaude timeoutMs runs 1).2.2 = [10000] ∧
      ∃ pre, "Claude Code failed after 2 attempts: " ++ e2.message = pre ++ e2.message) := by
  have hr : List.range' 1 2 = [1, 2] := rfl
  refine ⟨?_, ?_, ?_⟩
  · unfold invokeClaude
    rw [hr]
    rcases h1 : runClaudeCommand timeoutMs (runs 1) with ⟨res1, kb1⟩
    cases res1 with
    | ok a => simp [invokeClaudeGo, h1]
    | error e1 =>
      rcases h2 : runClaudeCommand timeoutMs (runs 2) with ⟨res2, kb2⟩
      cases res2 with
      | ok a => simp [invokeClaudeGo, h1, h2]
      | error e2 => simp [invokeClaudeGo, h1, h2]
  · intro k hk
    unfold runClaudeCommand
    rw [if_neg (Nat.not_lt.mpr hk)]
  · intro e1 e2 b1 b2 h1 h2
    unfold invokeClaude
    rw [hr]
    refine ⟨?_, ?_, ?_, ⟨"Claude Code failed after 2 attempts: ", rfl⟩⟩
    · simp only [invokeClaudeGo, h1, h2]
      rfl
    · simp [invokeClaudeGo, h1, h2]
    · simp [invokeClaudeGo, h1, h2]

/-- **C7 witness**: both attempts exit nonzero at once; the invoker
stops after two attempts, pauses once for 10 s, and raises the composed
error ending in the final failure's message. -/
theorem invokeClaude_retry_contract_witness :
    (invokeClaude 300000 runsBothFail 1).1
      = .raised { message :=
          "Claude Code failed after 2 attempts: Claude Code exited with code 1. stderr: boom" } ∧
    (invokeClaude 300000 runsBothFail 1).2.1 = 2 ∧
    (invokeClaude 300000 runsBothFail 1).2.2 = [10000] := by
  have r := (invokeClaude_retry_contract 300000 runsBothFail).2.2
    { message := "Claude Code exited with code 1. stderr: boom" }
    { message := "Claude Code exited with code 1. stderr: boom" }
    false false rfl rfl
  exact ⟨r.1, r.2.1, r.2.2.1⟩

/-- Dropping a prefix never lengthens a list. -/
theorem length_dropWhile_le (p : α → Bool) (l : List α) :
    (l.dropWhile p).length ≤ l.length := by
  induction l with
  | nil => simp
  | cons a l ih =>
    by_cases h : p a
    · simpa [List.dropWhile_cons, h] using Nat.le_succ_of_le ih
    · simp [List.dropWhile_cons, h]

/-- The head surviving a `dropWhile` fails the dropped predicate. -/
theorem head?_dropWhile_false (p : α → Bool) (l : List α) (c : α)
    (h : (l.dropWhile p).head? = some c) : p c = false := by
  induction l with
  | nil => simp at h
  | cons a l ih =>
    by_cases hp : p a
    · rw [List.dropWhile_cons, if_pos hp] at h
      exact ih h
    · rw [List.dropWhile_cons, if_neg hp] at h
      simp only [List.head?_cons, Option.some_inj] at h
      subst h
      exact Bool.eq_false_iff.mpr hp

/-- Stripping trailing hyphens never lengthens the list. -/
theorem dropTrailingHyphens_length_le (cs : List Char) :
    (dropTrailingHyphens cs).length ≤ cs.length := by
  unfold dropTrailingHyphens
  rw [List.length_reverse]
  calc (cs.reverse.dropWhile (fun c => c == '-')).length
      ≤ cs.reverse.length := length_dropWhile_le _ _
    _ = cs.length := List.length_reverse _

/-- After stripping trailing hyphens, the last element is not a
hyphen. -/
theorem dropTrailingHyphens_getLast?_ne (cs : List Char) (c : Char)
    (h : (dropTrailingHyphens cs).getLast? = some c) : c ≠ '-' := by
  unfold dropTrailingHyphens at h
  rw [List.getLast?_reverse] at h
  have hfalse := head?_dropWhile_false _ _ _ h
  intro hc
  subst hc
  simp at hfalse

/-- The slug never exceeds 40 characters. -/
theorem slugOf_length_le (title : String) : (slugOf title).length ≤ 40 := by
  unfold slugOf
  have h1 := dropTrailingHyphens_length_le
    ((collapseWsRuns ((title.toList.map jsToLower).filter keepSlugChar)).take 40)
  have h2 : ((collapseWsRuns ((title.toList.map jsToLower).filter keepSlugChar)).take 40).length
      ≤ 40 := by
    simp [List.length_take]
  exact le_trans (by simpa [String.length] using h1) h2

/-- **C9.**  Branch-name derivation is a pure function of the issue
number and title (all other issue fields are ignored); its output is
`auto/<number>-<slug>`; the slug is at most 40 characters and never
ends with a hyphen. -/
theorem generateBranchName_deterministic_pattern (i1 i2 : Issue)
    (h1 : i1.number = i2.number) (h2 : i1.title = i2.title) :
    generateBranchName i1 = generateBranchName i2 ∧
    generateBranchName i1 = "auto/" ++ toString i1.number ++ "-" ++ slugOf i1.title ∧
    (slugOf i1.title).length ≤ 40 ∧
    (∀ c, (slugOf i1.title).toList.getLast? = some c → c ≠ '-') := by
  refine ⟨by unfold generateBranchName; rw [h1, h2], rfl, slugOf_length_le _, ?_⟩
  intro c hc
  apply dropTrailingHyphens_getLast?_ne _ c
  simpa [slugOf, String.toList] using hc

/-- **C9 witness** at a concrete issue. -/
theorem generateBranchName_deterministic_pattern_witness :
    generateBranchName issueW = generateBranchName issueW ∧
    generateBranchName issueW
      = "auto/" ++ toString issueW.number ++ "-" ++ slugOf issueW.title ∧
    (slugOf issueW.title).length ≤ 40 ∧
    (∀ c, (slugOf issueW.title).toList.getLast? = some c → c ≠ '-') :=
  generateBranchName_deterministic_pattern issueW issueW rfl rfl

/-- The issue selected from the head of `availableIssues` passed its
filter: its number is neither claimed by an open PR branch nor already
processed. -/
theorem availableIssuesOf_head_not_claimed (issues : List Issue) (prs : List PRInfo)
    (processed : List Nat) (sel : Issue) (rest : List Issue)
    (h : availableIssuesOf issues prs processed = sel :: rest) :
    sel.number ∉ prIssueNumbersOf prs ∧ sel.number ∉ processed := by
  have hmem : sel ∈ availableIssuesOf issues prs processed := by
    rw [h]
    exact List.mem_cons_self _ _
  unfold availableIssuesOf at hmem
  rw [List.mem_filter] at hmem
  obtain ⟨-, hpred⟩ := hmem
  simp only [Bool.and_eq_true, Bool.not_eq_true'] at hpred
  obtain ⟨hpr, hproc⟩ := hpred
  constructor
  · intro hin
    have hc : (prIssueNumbersOf prs).contains sel.number = true := by
      simp [List.contains, List.elem_iff, hin]
    rw [hc] at hpr
    cases hpr
  · intro hin
    have hc : processed.contains sel.number = true := by
      simp [List.contains, List.elem_iff, hin]
    rw [hc] at hproc
    cases hproc

/-- Anatomy of a successful selection: the returned issue is the head of
`availableIssues` (so its number passed both exclusion filters), and the
processed set gained exactly that number. -/
theorem findEligibleIssue_ok_some_cases (env : SelectorEnv) (processed : List Nat)
    (issue : Issue) (p' : List Nat)
    (hget : ∀ n i, env.getIssue n = .ok i → i.number = n)
    (hsel : findEligibleIssue env processed
      = { result := .ok (some issue), processed := p' }) :
    p' = issue.number :: processed ∧
    issue.number ∉ processed ∧
    (∀ prs, env.openPRs = .ok prs → issue.number ∉ prIssueNumbersOf prs) := by
  unfold findEligibleIssue at hsel
  split at hsel
  · simp at hsel
  · split at hsel
    · simp at hsel
    · split at hsel
      · simp at hsel
      · split at hsel
        · simp at hsel
        · split at hsel
          · simp at hsel
          · rename_i prs hprs xa sel rest hav xg detail hg
            simp only [SelectRun.mk.injEq, Except.ok.injEq, Option.some.injEq] at hsel
            obtain ⟨hdet, hp'⟩ := hsel
            subst hdet
            have hnum := hget _ _ hg
            obtain ⟨hnotpr, hnotproc⟩ :=
              availableIssuesOf_head_not_claimed _ _ _ _ _ hav
            refine ⟨by rw [← hp', hnum], by rw [hnum]; exact hnotproc, ?_⟩
            intro prs0 hp0
            rw [hprs] at hp0
            injection hp0 with hp0
            subst hp0
            rw [hnum]
            exact hnotpr

/-- **C8.**  A successful selection never returns an issue whose number
is claimed by an open PR branch matching `auto/<number>-`; the selected
number enters the processed set immediately upon selection (the new set
is exactly the old one plus that number, recorded before any cycle
outcome exists); and a later selection starting from the updated set —
by the same process, whatever its environment — can never return the
same number again. -/
theorem findEligibleIssue_selection_invariants
    (env env2 : SelectorEnv) (processed : List Nat) (issue : Issue) (p' : List Nat)
    (hget : ∀ n i, env.getIssue n = .ok i → i.number = n)
    (hsel : findEligibleIssue env processed
      = { result := .ok (some issue), processed := p' }) :
    (∀ prs, env.openPRs = .ok prs →
      ∀ pr ∈ prs, branchIssueNumber pr.headRef ≠ some issue.number) ∧
    p' = issue.number :: processed ∧
    (∀ issue2 p'',
      (∀ n i, env2.getIssue n = .ok i → i.number = n) →
      findEligibleIssue env2 p' = { result := .ok (some issue2), processed := p'' } →
      issue2.number ≠ issue.number) := by
  obtain ⟨hp', hnotproc, hnotpr⟩ :=
    findEligibleIssue_ok_some_cases env processed issue p' hget hsel
  refine ⟨?_, hp', ?_⟩
  · intro prs hprs pr hmem hb
    refine (hnotpr prs hprs) ?_
    unfold prIssueNumbersOf
    exact List.mem_filterMap.mpr ⟨pr, hmem, hb⟩
  · intro issue2 p'' hget2 hsel2 hEq
    obtain ⟨-, hnot2, -⟩ :=
      findEligibleIssue_ok_some_cases env2 p' issue2 p'' hget2 hsel2
    refine hnot2 ?_
    rw [hp', hEq]
    exact List.mem_cons_self _ _

/-- **C8 witness**: issues 5 and 7 are eligible, issue 5 being claimed
by the open branch `auto/5-fix-crash`; the selector returns issue 7 and
the processed set becomes `[7]`. -/
theorem findEligibleIssue_selection_invariants_witness :
    (∀ prs, selEnvW.openPRs = .ok prs →
      ∀ pr ∈ prs, branchIssueNumber pr.headRef
        ≠ some (Issue.number { number := 7, title := "detail", body := none, labels := [] })) ∧
    ([7] : List Nat)
      = Issue.number { number := 7, title := "detail", body := none, labels := [] } :: [] ∧
    (∀ issue2 p'',
      (∀ n i, selEnvW.getIssue n = .ok i → i.number = n) →
      findEligibleIssue selEnvW [7] = { result := .ok (some issue2), processed := p'' } →
      issue2.number
        ≠ Issue.number { number := 7, title := "detail", body := none, labels := [] }) :=
  findEligibleIssue_selection_invariants selEnvW selEnvW []
    { number := 7, title := "detail", body := none, labels := [] } [7]
    (fun n i h => by cases h; rfl) rfl

/-- When the agent invocation fails, or a configured verification
command fails, the inner `try` block throws without attempting any
repository mutation. -/
theorem successPath_fails (cfg : Config) (env : CycleEnv) (issue : Issue)
    (branchName : String) (r : CycleResult) (e : JsError)
    (hfail : env.agent = .error e ∨
      (env.agent = .ok () ∧
        (runTests cfg env.testExit0 && runBuild cfg env.buildExit0) = false ∧
        e = testsOrBuildError)) :
    successPath cfg env issue branchName r = .error (e, []) := by
  rcases hfail with ha | ⟨ha, hv, he⟩
  · simp [successPath, ha]
  · subst he
    have hcond : (!(runTests cfg env.testExit0) || !(runBuild cfg env.buildExit0)) = true := by
      rw [← Bool.not_and, hv]
      rfl
    simp [successPath, ha, hcond]

/-- When the agent and verification succeed but the change probe
reports nothing, the inner `try` block finalizes `NO_CHANGES` without
attempting any repository mutation. -/
theorem successPath_no_changes (cfg : Config) (env : CycleEnv) (issue : Issue)
    (branchName : String) (r : CycleResult)
    (ha : env.agent = .ok ()) (ht : runTests cfg env.testExit0 = true)
    (hb : runBuild cfg env.buildExit0 = true) (hch : hasChanges env.status1 = false) :
    successPath cfg env issue branchName r
      = .ok ({ r with status := "NO_CHANGES" }, []) := by
  simp [successPath, ha, ht, hb, hch]

/-- Recovery with uncommitted changes: commit under the WIP message,
push, publish the draft PR, add the three labels, finalize `PARTIAL`. -/
theorem recoveryPath_with_changes (cfg : Config) (env : CycleEnv) (issue : Issue)
    (branchName : String) (r : CycleResult) (claudeError : JsError) (n : Nat)
    (hch : hasChanges env.status2 = true)
    (ha : env.addAll2 = .ok ()) (hc : env.commit2 = .ok ()) (hp : env.push2 = .ok ())
    (hcr : env.createPR2 = .ok n) (hl : env.addLabels2 = .ok ()) :
    recoveryPath cfg env issue branchName r claudeError
      = .ok ({ r with
            pr_number := some n, status := "PARTIAL",
            error := some claudeError.message },
        [.gitAddAll, .gitCommit (recoveryCommitMessage issue.number claudeError),
         .gitPush branchName,
         .apiCreatePR (draftPRTitle issue) (draftPRBody cfg issue claudeError) branchName,
         .apiAddLabels [cfg.labelIssue, cfg.labelClaude, "draft"]]) := by
  simp [recoveryPath, hch, ha, hc, hp, prManagerCreateDraft, hcr, hl]

/-- Recovery without uncommitted changes: finalize `FAILED`, no
repository mutation. -/
theorem recoveryPath_no_changes (cfg : Config) (env : CycleEnv) (issue : Issue)
    (branchName : String) (r : CycleResult) (claudeError : JsError)
    (hch : hasChanges env.status2 = false) :
    recoveryPath cfg env issue branchName r claudeError
      = .ok ({ r with status := "FAILED", error := some claudeError.message }, []) := by
  simp [recoveryPath, hch]

/-- **C6.**  In a cycle whose agent invocation fails or whose
configured verification fails: with uncommitted changes present and the
recovery operations succeeding, the cycle commits them under a message
recording the causing error, pushes, publishes the draft PR whose body
carries the error detail (with the `draft` label), and finalizes
`PARTIAL` with both the PR number and the error recorded; with no
uncommitted changes it finalizes `FAILED` with the error recorded and
attempts no repository mutation at all. -/
theorem runCycle_recovery_path (cfg : Config) (env : CycleEnv) (issue : Issue) (e : JsError)
    (hfind : env.findIssue = .ok (some issue))
    (hsync : env.sync = .ok ()) (hbr : env.createBranch = .ok ())
    (hprompt : env.prompt = .ok ())
    (hfail : env.agent = .error e ∨
      (env.agent = .ok () ∧
        (runTests cfg env.testExit0 && runBuild cfg env.buildExit0) = false ∧
        e = testsOrBuildError)) :
    (∀ n, hasChanges env.status2 = true → env.addAll2 = .ok () → env.commit2 = .ok () →
      env.push2 = .ok () → env.createPR2 = .ok n → env.addLabels2 = .ok () →
      (runCycle cfg env).result.status = "PARTIAL" ∧
      (runCycle cfg env).result.pr_number = some n ∧
      (runCycle cfg env).result.error = some e.message ∧
      (runCycle cfg env).actions
        = [.gitAddAll, .gitCommit (recoveryCommitMessage issue.number e),
           .gitPush (generateBranchName issue),
           .apiCreatePR (draftPRTitle issue) (draftPRBody cfg issue e)
             (generateBranchName issue),
           .apiAddLabels [cfg.labelIssue, cfg.labelClaude, "draft"]] ∧
      (∃ pre post, recoveryCommitMessage issue.number e = pre ++ e.message ++ post) ∧
      (∃ pre post, draftPRBody cfg issue e = pre ++ e.message ++ post)) ∧
    (hasChanges env.status2 = false →
      (runCycle cfg env).result.status = "FAILED" ∧
      (runCycle cfg env).result.error = some e.message ∧
      (runCycle cfg env).actions = []) := by
  have hsp : ∀ bn r, successPath cfg env issue bn r = .error (e, []) :=
    fun bn r => successPath_fails cfg env issue bn r e hfail
  constructor
  · intro n hch ha hc hp hcr hl
    have hrp : ∀ bn r, recoveryPath cfg env issue bn r e
        = .ok ({ r with
              pr_number := some n, status := "PARTIAL",
              error := some e.message },
          [.gitAddAll, .gitCommit (recoveryCommitMessage issue.number e),
           .gitPush bn,
           .apiCreatePR (draftPRTitle issue) (draftPRBody cfg issue e) bn,
           .apiAddLabels [cfg.labelIssue, cfg.labelClaude, "draft"]]) :=
      fun bn r => recoveryPath_with_changes cfg env issue bn r e n hch ha hc hp hcr hl
    unfold runCycle
    simp only [hfind, hsync, hbr, hprompt, hsp, hrp]
    exact ⟨trivial, trivial, trivial, rfl, ⟨_, _, rfl⟩, ⟨_, _, String.append_assoc _ _ _⟩⟩
  · intro hch
    have hrp : ∀ bn r, recoveryPath cfg env issue bn r e
        = .ok ({ r with status := "FAILED", error := some e.message }, []) :=
      fun bn r => recoveryPath_no_changes cfg env issue bn r e hch
    unfold runCycle
    simp only [hfind, hsync, hbr, hprompt, hsp, hrp]
    exact ⟨trivial, trivial, rfl⟩

/-- **C6 witness**: the agent fails in `recoveryEnvW`, the tree has an
uncommitted change, and every recovery operation succeeds: the cycle
finalizes `PARTIAL` with draft PR number 35 and the error recorded; the
draft PR body carries the error message. -/
theorem runCycle_recovery_path_witness :
    (runCycle defaultConfig recoveryEnvW).result.status = "PARTIAL" ∧
    (runCycle defaultConfig recoveryEnvW).result.pr_number = some 35 ∧
    (runCycle defaultConfig recoveryEnvW).result.error = some agentFailure.message ∧
    (∃ pre post, draftPRBody defaultConfig issueW agentFailure
        = pre ++ agentFailure.message ++ post) := by
  have h := (runCycle_recovery_path defaultConfig recoveryEnvW issueW agentFailure
    rfl rfl rfl rfl (Or.inl rfl)).1 35 rfl rfl rfl rfl rfl rfl
  exact ⟨h.1, h.2.1, h.2.2.1, h.2.2.2.2.2⟩

/-- **C10.**  The change probe never raises: a failing `git status`
yields `false`.  Consequently, in a cycle whose status probes fail, an
agent or verification failure finalizes `FAILED` with the error
recorded, an otherwise successful cycle finalizes `NO_CHANGES`, and in
either case no commit, push, or PR creation is attempted even if
uncommitted changes actually exist. -/
theorem hasChanges_failure_semantics (cfg : Config) (env : CycleEnv) (issue : Issue)
    (e1 e2 : JsError)
    (hfind : env.findIssue = .ok (some issue))
    (hsync : env.sync = .ok ()) (hbr : env.createBranch = .ok ())
    (hprompt : env.prompt = .ok ())
    (hst1 : env.status1 = .error e1) (hst2 : env.status2 = .error e2) :
    (∀ err, hasChanges (.error err) = false) ∧
    (∀ e, (env.agent = .error e ∨
        (env.agent = .ok () ∧
          (runTests cfg env.testExit0 && runBuild cfg env.buildExit0) = false ∧
          e = testsOrBuildError)) →
      (runCycle cfg env).result.status = "FAILED" ∧
      (runCycle cfg env).result.error = some e.message ∧
      (runCycle cfg env).actions = []) ∧
    (env.agent = .ok () → runTests cfg env.testExit0 = true →
      runBuild cfg env.buildExit0 = true →
      (runCycle cfg env).result.status = "NO_CHANGES" ∧
      (runCycle cfg env).actions = []) := by
  refine ⟨fun err => rfl, ?_, ?_⟩
  · intro e hfail
    have hsp : ∀ bn r, successPath cfg env issue bn r = .error (e, []) :=
      fun bn r => successPath_fails cfg env issue bn r e hfail
    have hch : hasChanges env.status2 = false := by
      rw [hst2]
      rfl
    have hrp : ∀ bn r, recoveryPath cfg env issue bn r e
        = .ok ({ r with status := "FAILED", error := some e.message }, []) :=
      fun bn r => recoveryPath_no_changes cfg env issue bn r e hch
    unfold runCycle
    simp only [hfind, hsync, hbr, hprompt, hsp, hrp]
    exact ⟨trivial, trivial, rfl⟩
  · intro ha ht hb
    have hch1 : hasChanges env.status1 = false := by
      rw [hst1]
      rfl
    have hsp : ∀ bn r, successPath cfg env issue bn r
        = .ok ({ r with status := "NO_CHANGES" }, []) :=
      fun bn r => successPath_no_changes cfg env issue bn r ha ht hb hch1
    unfold runCycle
    simp only [hfind, hsync, hbr, hprompt, hsp]
    exact ⟨trivial, trivial⟩

/-- **C10 witness**: in `statusFailEnvW` both status probes fail and the
agent fails; the cycle finalizes `FAILED` and attempts no repository
mutation. -/
theorem hasChanges_failure_semantics_witness :
    hasChanges (.error gitStatusFailure) = false ∧
    (runCycle defaultConfig statusFailEnvW).result.status = "FAILED" ∧
    (runCycle defaultConfig statusFailEnvW).actions = [] := by
  have h := hasChanges_failure_semantics defaultConfig statusFailEnvW issueW
    gitStatusFailure gitStatusFailure rfl rfl rfl rfl rfl rfl
  have h2 := h.2.1 agentFailure (Or.inl rfl)
  exact ⟨h.1 gitStatusFailure, h2.1, h2.2.2⟩

end AutoIssueRunner
